import Mathlib

set_option maxHeartbeats 1000000

/-!
Shallow embedding of the green-corridor emergency routing core
(src/algorithms/adaptive_astar.py): the adaptive weight engine, the
cost and heuristic functions, route creation with its engine-retry
fallback, the traffic-light preemption state machine, and the arrival
decision.  Python floats are modelled as exact rationals, traci calls
as explicit environment records, and a cost of float inf as `none`.
-/

/-- One record appended to `RouteContext.weight_history` per weight
evaluation (adaptive_astar.py lines 167-175). -/
structure WeightSample where
  edge : String
  distance_weight : ℚ
  time_weight : ℚ
  progress : ℚ
  congestion_shift : ℚ
deriving DecidableEq

/-- The `RouteContext` dataclass (lines 48-71).  `goal_edge` is not a
declared dataclass field in the source; it is attached dynamically in
`create_route` (line 345), so it is modelled as an `Option` that is
`none` while the attribute is absent (reading it then raises). -/
structure RouteContext where
  start_time : Option ℚ
  total_distance : ℚ
  distance_traveled : ℚ
  time_accumulated : ℚ
  severity : String
  vehicle_type : String
  signals_passed : ℕ
  weight_history : List WeightSample
  goal_edge : Option String
deriving DecidableEq

/-- The dataclass defaults (lines 64-71). -/
def defaultContext : RouteContext :=
  ⟨none, 0, 0, 0, "HIGH", "ambulance", 0, [], none⟩

/-- Severity lookup table (lines 140-145, repeated at lines 363-364).
`dict.get(severity, 0.0)`: unknown severities map to 0. -/
def severityFactors (sev : String) : ℚ :=
  if sev = "CRITICAL" then 0.15 else if sev = "HIGH" then 0.08 else 0

/-- Rush-hour shift (lines 152-155): 0.05 when the wall-clock hour is
in [7,9] or [16,19], else 0. -/
def rushHourShift (hour : ℕ) : ℚ :=
  if (7 ≤ hour ∧ hour ≤ 9) ∨ (16 ≤ hour ∧ hour ≤ 19) then 0.05 else 0

/-- Progress ratio as computed at lines 132-135: zero unless
`total_distance > 0`. -/
def progressRatio (ctx : RouteContext) : ℚ :=
  if 0 < ctx.total_distance then ctx.distance_traveled / ctx.total_distance else 0

/-- `AdaptiveWeightedAStarRouter.get_adaptive_weights` (lines 108-177).
The wall-clock hour (`datetime.now().hour`) is an explicit argument;
the method also appends a `WeightSample` to the context history. -/
def get_adaptive_weights (base_time_weight : ℚ) (hour : ℕ)
    (current_edge_id _goal_edge_id : String) (ctx : RouteContext) :
    (ℚ × ℚ) × RouteContext :=
  let progress_shift :=
    if 0 < ctx.total_distance then 0.20 * (ctx.distance_traveled / ctx.total_distance) else 0
  let severity_shift := severityFactors ctx.severity
  let congestion_shift : ℚ := 0
  let rush_hour_shift := rushHourShift hour
  let total_shift := progress_shift + severity_shift + congestion_shift + rush_hour_shift
  let time_weight := min 0.95 (base_time_weight + total_shift)
  let distance_weight := 1 - time_weight
  let sample : WeightSample :=
    { edge := current_edge_id
      distance_weight := distance_weight
      time_weight := time_weight
      progress := if 0 < ctx.total_distance then ctx.distance_traveled / ctx.total_distance else 0
      congestion_shift := congestion_shift }
  ((distance_weight, time_weight),
    { ctx with weight_history := ctx.weight_history ++ [sample] })

/-- External capabilities used by the router.  `distanceRoad a b = none`
models a traci exception; a negative value is the unreachable sentinel.
`edgeSpeed e = none` models `getEdge`/`getSpeed` raising (the code then
uses the 40.0 default).  `outgoing e = none` models `getEdge` raising
inside `find_next_edge`. -/
structure RouterEnv where
  distanceRoad : String → String → Option ℚ
  edgeSpeed : String → Option ℚ
  hour : ℕ
  outgoing : String → Option (List String)

/-- `AdaptiveWeightedAStarRouter.calculate_cost` (lines 179-225).
A `none` cost models an infinite cost.  When `ctx.goal_edge` is absent,
reading `self.context.goal_edge` raises `AttributeError`, which the
outer handler turns into inf with the context untouched. -/
def calculate_cost (env : RouterEnv) (base_time_weight : ℚ)
    (start_edge_id current_node : String) (ctx : RouteContext) :
    Option ℚ × RouteContext :=
  match env.distanceRoad start_edge_id current_node with
  | none => (none, ctx)
  | some distance =>
    if distance < 0 then (none, ctx)
    else
      let speed_limit := (env.edgeSpeed current_node).getD 40
      let travel_time := distance / max speed_limit 1
      match ctx.goal_edge with
      | none => (none, ctx)
      | some goal =>
        let wr := get_adaptive_weights base_time_weight env.hour current_node goal ctx
        let combined_cost := wr.1.1 * distance + wr.1.2 * travel_time
        (some combined_cost,
          { wr.2 with distance_traveled := distance, time_accumulated := travel_time })

/-- `AdaptiveWeightedAStarRouter.heuristic_estimate` (lines 227-271). -/
def heuristic_estimate (env : RouterEnv) (base_time_weight : ℚ)
    (current_node goal_node_id : String) (ctx : RouteContext) :
    Option ℚ × RouteContext :=
  match env.distanceRoad current_node goal_node_id with
  | none => (none, ctx)
  | some distance =>
    if distance < 0 then (none, ctx)
    else
      let speed_limit := (env.edgeSpeed current_node).getD 40
      let remaining_travel_time := distance / max speed_limit 1
      let wr := get_adaptive_weights base_time_weight env.hour current_node goal_node_id ctx
      (some (wr.1.1 * distance + wr.1.2 * remaining_travel_time), wr.2)

/-- Addition on costs where `none` is Python float inf (inf absorbs). -/
def optAdd : Option ℚ → Option ℚ → Option ℚ
  | some a, some b => some (a + b)
  | _, _ => none

/-- Strict order on costs where `none` is float inf (inf is never below
anything, every finite value is below inf). -/
def optLt : Option ℚ → Option ℚ → Bool
  | some a, some b => decide (a < b)
  | some _, none => true
  | none, _ => false

/-- `AdaptiveWeightedAStarRouter.evaluate_node` (lines 273-287):
`f(n) = g(n) + h(n)`, threading the mutable context through both. -/
def evaluate_node (env : RouterEnv) (bt : ℚ) (node start_node goal_node : String)
    (ctx : RouteContext) : Option ℚ × RouteContext :=
  let g := calculate_cost env bt start_node node ctx
  let h := heuristic_estimate env bt node goal_node g.2
  (optAdd g.1 h.1, h.2)

/-- `AdaptiveWeightedAStarRouter.find_next_edge` (lines 289-320):
minimum-f outgoing edge, `none` when the edge lookup raises, there are
no outgoing edges, or every candidate has infinite cost. -/
def find_next_edge (env : RouterEnv) (bt : ℚ) (current_edge goal_junction : String)
    (ctx : RouteContext) : Option String × RouteContext :=
  match env.outgoing current_edge with
  | none => (none, ctx)
  | some edges_leaving =>
    if edges_leaving.isEmpty then (none, ctx)
    else
      let r := edges_leaving.foldl
        (fun (acc : Option String × Option ℚ × RouteContext) edge =>
          let er := evaluate_node env bt edge current_edge goal_junction acc.2.2
          if optLt er.1 acc.2.1 then (some edge, er.1, er.2) else (acc.1, acc.2.1, er.2))
        (none, none, ctx)
      (r.1, r.2.2)

/-- A network edge as read from `self.net.getEdges()` (id, length in
meters, speed limit in m/s). -/
structure NetEdge where
  id : String
  length : ℚ
  speed : ℚ
deriving DecidableEq

/-- An effort assignment issued through `traci.edge.setEffort`. -/
structure EffortAction where
  edge : String
  effort : ℚ
deriving DecidableEq

/-- True for internal edges, whose id starts with a colon (line 354). -/
def isInternal (id : String) : Bool :=
  match id.data with
  | [] => false
  | c :: _ => c == ':'

/-- The per-edge effort of the annotation pass (lines 357-374):
severity-only weights, `effort = dw*length + tw*(length/max speed 1)*10`. -/
def edgeEffort (base_time_weight : ℚ) (severity : String) (e : NetEdge) : ℚ :=
  let severity_shift := severityFactors severity
  let time_weight := min 0.95 (base_time_weight + severity_shift)
  let distance_weight := 1 - time_weight
  let travel_time := e.length / max e.speed 1
  distance_weight * e.length + time_weight * travel_time * 10

/-- The effort-setting loop of `create_route` (lines 350-380), skipping
internal edges. -/
def setAdaptiveEfforts (base_time_weight : ℚ) (severity : String)
    (edges : List NetEdge) : List EffortAction :=
  edges.filterMap fun e =>
    if isInternal e.id then none
    else some ⟨e.id, edgeEffort base_time_weight severity e⟩

/-- The effort-reset loop of the routing retry (lines 391-397):
`setEffort(edge, -1)` on every non-internal edge. -/
def resetEfforts (edges : List NetEdge) : List EffortAction :=
  edges.filterMap fun e =>
    if isInternal e.id then none else some ⟨e.id, -1⟩

/-- External calls consumed by `create_route`.  `none` models the traci
call raising; `findRouteWeighted` is the first `findRoute` (with the
adaptive efforts set) and `findRouteDefault` the retry after the
efforts were reset. -/
structure RoutingCalls where
  distStartGoal : Option ℚ
  simTime : ℚ
  findRouteWeighted : Option (List String)
  findRouteDefault : Option (List String)
  edges : List NetEdge

/-- `AdaptiveWeightedAStarRouter.create_route` (lines 322-405).  Returns
the route, the updated context, and the effort actions issued.  Any
exception falls into the handler that returns `[start_edge, goal_edge]`
(context mutations made before the exception persist). -/
def create_route (calls : RoutingCalls) (base_time_weight : ℚ)
    (start_edge goal_edge : String) (ctx : RouteContext) :
    List String × RouteContext × List EffortAction :=
  match calls.distStartGoal with
  | none => ([start_edge, goal_edge], ctx, [])
  | some td =>
    let ctx1 := { ctx with
      total_distance := td
      goal_edge := some goal_edge
      start_time := some calls.simTime }
    let efforts := setAdaptiveEfforts base_time_weight ctx1.severity calls.edges
    match calls.findRouteWeighted with
    | none => ([start_edge, goal_edge], ctx1, efforts)
    | some route =>
      if route.length ≤ 1 then
        let efforts2 := efforts ++ resetEfforts calls.edges
        match calls.findRouteDefault with
        | none => ([start_edge, goal_edge], ctx1, efforts2)
        | some route2 =>
          (if route2.isEmpty then [start_edge, goal_edge] else route2, ctx1, efforts2)
      else (route, ctx1, efforts)

/-- Modelled from the spec (section 4.2 b): the fallback greedy walk
that the spec says `create_route` runs when the external engine returns
fewer than 2 edges.  No such loop exists in the source - `create_route`
never calls `find_next_edge` - so this definition follows the spec
words: repeatedly pick the minimum-f outgoing edge (`find_next_edge`),
terminate on reaching the goal, on a repeated node (visited set) or at
the iteration cap, and degrade to `[start, goal]` when no viable path
is found. -/
def specGreedyWalkGo (env : RouterEnv) (bt : ℚ) (goal : String) :
    ℕ → List String → String → List String → RouteContext → List String
  | 0, _, _, acc, _ => acc.reverse
  | fuel + 1, visited, current, acc, ctx =>
    if current = goal then acc.reverse
    else
      let r := find_next_edge env bt current goal ctx
      match r.1 with
      | none => acc.reverse
      | some nxt =>
        if nxt ∈ visited then acc.reverse
        else specGreedyWalkGo env bt goal fuel (nxt :: visited) nxt (nxt :: acc) r.2

/-- Modelled from the spec (section 4.2 b), see `specGreedyWalkGo`. -/
def specGreedyWalk (env : RouterEnv) (bt : ℚ) (start goal : String)
    (cap : ℕ) (ctx : RouteContext) : List String :=
  let r := specGreedyWalkGo env bt goal cap [start] start [start] ctx
  if r.length ≤ 1 then [start, goal] else r

/-- Per-vehicle stuck tracker entry, the dict created at lines 486-494.
`last_pos` and `last_time` are initialised but never written again in
the source, so only the two live fields are modelled. -/
structure StuckInfo where
  stuck_start : Option ℚ
  last_tls : Option String
deriving DecidableEq

/-- Association-list lookup, modelling Python dict access keyed by
string identifiers. -/
def alGet {α : Type} : List (String × α) → String → Option α
  | [], _ => none
  | (k, v) :: rest, key => if k = key then some v else alGet rest key

/-- Association-list update/insert, modelling Python dict assignment. -/
def alSet {α : Type} : List (String × α) → String → α → List (String × α)
  | [], key, v => [(key, v)]
  | (k, w) :: rest, key, v =>
    if k = key then (k, v) :: rest else (k, w) :: alSet rest key v

/-- The class-level registries of `TrafficLightController` (lines
447-494): original programs, cooldowns, fallback counts, the gridlock
set, its mirror database, and the per-vehicle stuck trackers. -/
structure TLCState where
  original_programs : List (String × Option String)
  cooldowns : List (String × ℚ)
  fallback_counts : List (String × ℕ)
  gridlock_tls : List String
  gridlock_db : List String
  stuck_info : List (String × StuckInfo)
deriving DecidableEq

/-- The empty registries, as before the first call ever creates them. -/
def initialTLC : TLCState := ⟨[], [], [], [], [], []⟩

/-- Keyword parameters of `preempt_traffic_lights` (lines 416-424). -/
structure PreemptParams where
  detection_range : ℚ
  stuck_timeout : ℚ
  stuck_speed : ℚ
  cooldown_period : ℚ
  max_fallbacks : ℕ
deriving DecidableEq

/-- The source defaults: 500.0, 10.0, 0.1, 30.0, 3. -/
def defaultParams : PreemptParams := ⟨500, 10, 0.1, 30, 3⟩

/-- The traci telemetry consumed by one `preempt_traffic_lights` call.
`nextTLS` is the head of `getNextTLS` (tls id, link index, distance,
state character), `none` when the list is empty.  `programQuery = none`
models `getProgram` raising.  `phases = none` models
`getAllProgramLogics` raising or returning an empty list (indexing
`[0]` then raises).  `setProgram_ok = false` models `setProgram`
raising. -/
structure CallEnv where
  in_id_list : Bool
  nextTLS : Option (String × ℕ × ℚ × Char)
  programQuery : Option String
  sim_time : ℚ
  speed : ℚ
  phases : Option (List (List Char))
  setProgram_ok : Bool

/-- A signal-control action issued by the controller. -/
inductive SignalAction where
  | setProgram (tls prog : String)
  | setPhase (tls : String) (phaseIdx : ℕ)
deriving DecidableEq

/-- Lines 447-456: capture the original program on first observation. -/
def captureOriginal (s : TLCState) (tls_id : String)
    (programQuery : Option String) : TLCState :=
  if (alGet s.original_programs tls_id).isNone then
    { s with original_programs := alSet s.original_programs tls_id programQuery }
  else s

/-- Lines 486-494: `stuck_info.setdefault(vehicle_id, {...})`. -/
def ensureStuckInfo (s : TLCState) (vehicle_id : String) : TLCState :=
  if (alGet s.stuck_info vehicle_id).isNone then
    { s with stuck_info := alSet s.stuck_info vehicle_id ⟨none, none⟩ }
  else s

/-- Lines 464-467: preemption is suppressed while
`sim_time < cooldowns[tls_id]`. -/
def cooldownActive (s : TLCState) (tls_id : String) (sim_time : ℚ) : Bool :=
  match alGet s.cooldowns tls_id with
  | some until_t => decide (sim_time < until_t)
  | none => false

/-- The stuck-detection block (lines 501-541).  `Sum.inl` is an early
`return False` carrying the new state and the signal actions taken;
`Sum.inr` falls through to the preemption attempt. -/
def stuckStep (p : PreemptParams) (env : CallEnv) (vehicle_id tls_id : String)
    (original_program : Option String) (s : TLCState) :
    (TLCState × List SignalAction) ⊕ TLCState :=
  let info := (alGet s.stuck_info vehicle_id).getD ⟨none, none⟩
  if info.last_tls = some tls_id then
    if env.speed < p.stuck_speed then
      match info.stuck_start with
      | none =>
        Sum.inr { s with
          stuck_info := alSet s.stuck_info vehicle_id ⟨some env.sim_time, info.last_tls⟩ }
      | some t0 =>
        if p.stuck_timeout < env.sim_time - t0 then
          let newCount := (alGet s.fallback_counts tls_id).getD 0 + 1
          let s1 := { s with fallback_counts := alSet s.fallback_counts tls_id newCount }
          if p.max_fallbacks ≤ newCount then
            Sum.inl ({ s1 with
              gridlock_tls := tls_id :: s1.gridlock_tls
              gridlock_db := tls_id :: s1.gridlock_db
              stuck_info := alSet s1.stuck_info vehicle_id ⟨none, info.last_tls⟩ }, [])
          else
            match original_program with
            | some prog =>
              if env.setProgram_ok then
                Sum.inl ({ s1 with
                  cooldowns := alSet s1.cooldowns tls_id (env.sim_time + p.cooldown_period)
                  stuck_info := alSet s1.stuck_info vehicle_id ⟨none, info.last_tls⟩ },
                  [SignalAction.setProgram tls_id prog])
              else
                Sum.inl ({ s1 with
                  stuck_info := alSet s1.stuck_info vehicle_id ⟨none, info.last_tls⟩ }, [])
            | none =>
              Sum.inl ({ s1 with
                cooldowns := alSet s1.cooldowns tls_id (env.sim_time + p.cooldown_period)
                stuck_info := alSet s1.stuck_info vehicle_id ⟨none, info.last_tls⟩ }, [])
        else Sum.inr s
    else
      Sum.inr { s with
        stuck_info := alSet s.stuck_info vehicle_id ⟨none, info.last_tls⟩ }
  else
    Sum.inr { s with
      stuck_info := alSet s.stuck_info vehicle_id ⟨none, some tls_id⟩ }

/-- The preemption attempt (lines 543-572): only within detection range
and when the approach state is red or yellow; compatible phases are
those whose state string is G or g at the link index (the index guard
`tls_index < len(phase.state)` is the success of the indexed access);
all compatible phases are forced in program order. -/
def preemptAttempt (p : PreemptParams) (env : CallEnv) (tls_id : String)
    (tls_index : ℕ) (tls_dist : ℚ) (tls_state : Char) : Bool × List SignalAction :=
  if tls_dist ≤ p.detection_range ∧ (tls_state = 'r' ∨ tls_state = 'y') then
    match env.phases with
    | none => (false, [])
    | some phases =>
      let compatible := (phases.enum.filter fun pr =>
        pr.2.get? tls_index == some 'G' || pr.2.get? tls_index == some 'g').map Prod.fst
      if compatible.isEmpty then (false, [])
      else (true, compatible.map (SignalAction.setPhase tls_id))
  else (false, [])

/-- `TrafficLightController.preempt_traffic_lights` (lines 416-572):
returns the success flag, the updated registries and the signal actions
issued during the call. -/
def preempt (p : PreemptParams) (env : CallEnv) (vehicle_id : String)
    (s : TLCState) : Bool × TLCState × List SignalAction :=
  if env.in_id_list = false then (false, s, [])
  else
    match env.nextTLS with
    | none => (false, s, [])
    | some (tls_id, tls_index, tls_dist, tls_state) =>
      let s1 := captureOriginal s tls_id env.programQuery
      let original_program := (alGet s1.original_programs tls_id).getD none
      if cooldownActive s1 tls_id env.sim_time then (false, s1, [])
      else if tls_id ∈ s1.gridlock_tls then (false, s1, [])
      else
        let s2 := ensureStuckInfo s1 vehicle_id
        match stuckStep p env vehicle_id tls_id original_program s2 with
        | Sum.inl (s3, acts) => (false, s3, acts)
        | Sum.inr s3 =>
          let r := preemptAttempt p env tls_id tls_index tls_dist tls_state
          (r.1, s3, r.2)

/-- The condition under which the stuck-timeout fallback fires in a
call (the branch at lines 502-506 reaching line 507): same tracked
signal, speed below threshold, and a running stuck timer strictly older
than `stuck_timeout`. -/
def stuckFallbackFires (p : PreemptParams) (env : CallEnv)
    (vehicle_id tls_id : String) (s : TLCState) : Bool :=
  let info := (alGet s.stuck_info vehicle_id).getD ⟨none, none⟩
  info.last_tls == some tls_id && decide (env.speed < p.stuck_speed) &&
    (match info.stuck_start with
     | some t0 => decide (p.stuck_timeout < env.sim_time - t0)
     | none => false)

/-- Iterated calls of `preempt_traffic_lights` for one vehicle: the
registries persist across calls for the session. -/
def runCalls (p : PreemptParams) (vehicle_id : String) :
    TLCState → List CallEnv → TLCState
  | s, [] => s
  | s, env :: rest => runCalls p vehicle_id (preempt p env vehicle_id s).2.1 rest

/-- The C3 invariant: a gridlocked intersection has accumulated at
least `max_fallbacks` fallbacks. -/
def gridlockInv (p : PreemptParams) (s : TLCState) : Prop :=
  ∀ tls ∈ s.gridlock_tls, p.max_fallbacks ≤ (alGet s.fallback_counts tls).getD 0

/-- The per-tick telemetry consumed by the arrival check in
`EmergencyVehicleSimulation.run` (lines 886-925).  `route_index` is an
integer because traci reports -1 before departure.  `lane_query`
bundles `(lane_pos, lane_length)`; `none` models the lane reads raising
(the inner handler then leaves `stuck_at_penultimate` false). -/
structure ArrivalInput where
  route : List String
  route_index : ℤ
  in_arrived_list : Bool
  current_edge : String
  goal_edge : String
  lane_query : Option (ℚ × ℚ)
  speed : ℚ
  current_time : ℚ
  start_time : ℚ
deriving DecidableEq

/-- Line 889: `route_index == len(vehicle_route) - 1`. -/
def at_last_edge (a : ArrivalInput) : Bool :=
  a.route_index == (a.route.length : ℤ) - 1

/-- Line 897: `current_edge == goal_edge`. -/
def on_goal_edge (a : ArrivalInput) : Bool :=
  a.current_edge == a.goal_edge

/-- Lines 903-917: on the penultimate route edge, within 1 m of the
lane end, at speed below 0.1, more than 5 s after the monitored start. -/
def stuck_at_penultimate (a : ArrivalInput) : Bool :=
  a.route_index == (a.route.length : ℤ) - 2 &&
    (match a.lane_query with
     | some (lane_pos, lane_length) =>
       decide (lane_length - lane_pos < 1) && decide (a.speed < 0.1) &&
         decide (5 < a.current_time - a.start_time)
     | none => false)

/-- Lines 920-925: arrival fires when any of the four conditions holds. -/
def arrival_decision (a : ArrivalInput) : Bool :=
  a.in_arrived_list || at_last_edge a || on_goal_edge a || stuck_at_penultimate a

/-- Lines 943-951: the diagnostic reason list, one entry per fired rule,
in source order. -/
def arrival_reason (a : ArrivalInput) : List String :=
  (if a.in_arrived_list then ["in arrived list"] else []) ++
  (if at_last_edge a then ["at last route edge"] else []) ++
  (if on_goal_edge a then ["on goal edge"] else []) ++
  (if stuck_at_penultimate a then ["stuck at penultimate edge"] else [])

/-- Registry state of a session in which the ambulance has been tracked
stuck at signal J1 since t = 100 and J1's original program is known. -/
def exStuckState : TLCState :=
  ⟨[("J1", some "0")], [], [], [], [], [("ambulance", ⟨some 100, some "J1"⟩)]⟩

/-- A call at time `t` with the ambulance halted 600 m before J1, whose
approach state is red. -/
def exEnvAt (t : ℚ) : CallEnv :=
  ⟨true, some ("J1", 0, 600, 'r'), some "0", t, 0, none, true⟩

/-- Like `exStuckState` but with two fallbacks already recorded, so the
next fallback reaches `max_fallbacks = 3`. -/
def exAlmostGridlocked : TLCState :=
  ⟨[("J1", some "0")], [], [("J1", 2)], [], [], [("ambulance", ⟨some 100, some "J1"⟩)]⟩

/-- A session state in which J1 is already gridlocked. -/
def exGridlockedState : TLCState :=
  ⟨[("J1", some "0")], [], [("J1", 3)], ["J1"], ["J1"], [("ambulance", ⟨none, some "J1"⟩)]⟩

/-- A session state in which J1 is cooling down until t = 230. -/
def exCooldownState : TLCState :=
  ⟨[("J1", some "0")], [("J1", 230)], [("J1", 1)], [], [],
    [("ambulance", ⟨none, some "J1"⟩)]⟩

/-- A router environment in which every distance query answers 100 m,
every speed limit is 10 m/s and no edge has outgoing edges. -/
def exRouterEnv : RouterEnv :=
  ⟨fun _ _ => some 100, fun _ => some 10, 0, fun _ => some []⟩

/-- A router environment whose distance queries return the negative
unreachable sentinel. -/
def exNegRouterEnv : RouterEnv :=
  ⟨fun _ _ => some (-5), fun _ => some 10, 0, fun _ => some []⟩

/-- Routing calls where the weighted `findRoute` returns an unusable
empty route and the unweighted retry returns a two-edge route. -/
def exRetryCalls : RoutingCalls := ⟨some 1000, 0, some [], some ["x", "y"], []⟩

/-- Routing calls where the weighted `findRoute` returns an unusable
empty route and the unweighted retry returns a single-edge route. -/
def exOneEdgeCalls : RoutingCalls := ⟨some 1000, 0, some [], some ["a"], []⟩

/-- Arrival input on the last route edge only (index 2 of 3 edges),
with every other condition false. -/
def exArrLast : ArrivalInput :=
  ⟨["e1", "e2", "e3"], 2, false, "somewhere", "g", none, 5, 100, 50⟩

/-- Arrival input in the simulator arrived list only. -/
def exArrListed : ArrivalInput :=
  ⟨["e1", "e2", "e3"], 0, true, "e1", "g", none, 5, 100, 50⟩

/-- Arrival input with all four conditions false. -/
def exArrNone : ArrivalInput :=
  ⟨["e1", "e2", "e3"], 0, false, "e1", "g", none, 5, 100, 50⟩

/-- A context that has progressed the full route distance under a
CRITICAL emergency. -/
def exCriticalDoneCtx : RouteContext :=
  ⟨some 0, 100, 100, 0, "CRITICAL", "ambulance", 0, [], some "g"⟩

/-- A context mid-route with the goal edge attribute set. -/
def exMidCtx : RouteContext :=
  ⟨some 0, 1000, 250, 0, "HIGH", "ambulance", 0, [], some "g"⟩

/-- The registry state carried by a `stuckStep` outcome. -/
def stuckStepState : (TLCState × List SignalAction) ⊕ TLCState → TLCState
  | Sum.inl (s, _) => s
  | Sum.inr s => s

theorem alGet_alSet_self {α : Type} (l : List (String × α)) (k : String) (v : α) :
    alGet (alSet l k v) k = some v := by
  induction l with
  | nil => simp [alGet, alSet]
  | cons hd tl ih =>
    obtain ⟨k0, w⟩ := hd
    by_cases h : k0 = k
    · simp [alSet, h, alGet]
    · simp [alSet, h, alGet, ih]

theorem alGet_alSet_ne {α : Type} (l : List (String × α)) (k k' : String) (v : α)
    (h : k ≠ k') : alGet (alSet l k v) k' = alGet l k' := by
  induction l with
  | nil => simp [alGet, alSet, h]
  | cons hd tl ih =>
    obtain ⟨k0, w⟩ := hd
    by_cases h0 : k0 = k
    · subst h0
      simp [alSet, alGet, h]
    · simp [alSet, h0, alGet, ih]

theorem severityFactors_nonneg (sev : String) : 0 ≤ severityFactors sev := by
  unfold severityFactors
  split_ifs <;> norm_num

theorem rushHourShift_nonneg (hour : ℕ) : 0 ≤ rushHourShift hour := by
  unfold rushHourShift
  split_ifs <;> norm_num

theorem weights_bounds (bt S : ℚ) (hbt : 0 ≤ bt) (hS : 0 ≤ S) :
    (1 - min 0.95 (bt + S)) + min 0.95 (bt + S) = 1 ∧
    min 0.95 (bt + S) ≤ 0.95 ∧
    0 ≤ 1 - min 0.95 (bt + S) ∧ 1 - min 0.95 (bt + S) ≤ 1 ∧
    0 ≤ min 0.95 (bt + S) ∧ min 0.95 (bt + S) ≤ 1 := by
  have h1 : min (0.95 : ℚ) (bt + S) ≤ 0.95 := min_le_left _ _
  have h2 : 0 ≤ min (0.95 : ℚ) (bt + S) := le_min (by norm_num) (by linarith)
  exact ⟨by ring, h1, by linarith, by linarith, h2, by linarith⟩

/-- C1: with `base_time_weight = 0.4`, `get_adaptive_weights` returns
`time_weight = min(0.95, 0.4 + 0.20*progress_ratio + severity_shift +
rush_hour_shift)` with the claimed shift tables, and at severity
CRITICAL, progress ratio 1 and rush hour active it returns
`(distance_weight, time_weight) = (0.20, 0.80)`. -/
theorem c1_time_weight_formula :
    (∀ (hour : ℕ) (e g : String) (ctx : RouteContext),
      ((get_adaptive_weights 0.4 hour e g ctx).1).2 =
        min 0.95 (0.4 + 0.20 * progressRatio ctx + severityFactors ctx.severity +
          rushHourShift hour)) ∧
    (get_adaptive_weights 0.4 8 "e" "g" exCriticalDoneCtx).1 = (0.20, 0.80) := by
  constructor
  · intro hour e g ctx
    unfold get_adaptive_weights progressRatio
    dsimp only
    congr 1
    split <;> ring
  · simp only [get_adaptive_weights, exCriticalDoneCtx, severityFactors, rushHourShift]
    norm_num [min_def, Prod.ext_iff]

/-- C2: for any severity string, non-negative distances and any hour
(and any non-negative base time weight, 0.4 in the source default),
`get_adaptive_weights` returns `(distance_weight, time_weight)` with
the two summing exactly to 1 (hence within 1e-3), `time_weight ≤ 0.95`
and both in [0,1]. -/
theorem c2_weights_well_formed (bt : ℚ) (hour : ℕ) (e g : String) (ctx : RouteContext)
    (hbt : 0 ≤ bt) (hdt : 0 ≤ ctx.distance_traveled) (htd : 0 ≤ ctx.total_distance) :
    ((get_adaptive_weights bt hour e g ctx).1).1 + ((get_adaptive_weights bt hour e g ctx).1).2 = 1 ∧
    |((get_adaptive_weights bt hour e g ctx).1).1 + ((get_adaptive_weights bt hour e g ctx).1).2 - 1| ≤ 1/1000 ∧
    ((get_adaptive_weights bt hour e g ctx).1).2 ≤ 0.95 ∧
    0 ≤ ((get_adaptive_weights bt hour e g ctx).1).1 ∧
    ((get_adaptive_weights bt hour e g ctx).1).1 ≤ 1 ∧
    0 ≤ ((get_adaptive_weights bt hour e g ctx).1).2 ∧
    ((get_adaptive_weights bt hour e g ctx).1).2 ≤ 1 := by
  have hprog : (0 : ℚ) ≤
      (if 0 < ctx.total_distance then 0.20 * (ctx.distance_traveled / ctx.total_distance) else 0) := by
    split
    · exact mul_nonneg (by norm_num) (div_nonneg hdt htd)
    · exact le_refl 0
  have hS : (0 : ℚ) ≤
      (if 0 < ctx.total_distance then 0.20 * (ctx.distance_traveled / ctx.total_distance) else 0) +
        severityFactors ctx.severity + 0 + rushHourShift hour := by
    have h1 := severityFactors_nonneg ctx.severity
    have h2 := rushHourShift_nonneg hour
    linarith
  have hb := weights_bounds bt _ hbt hS
  refine ⟨hb.1, ?_, hb.2.1, hb.2.2.1, hb.2.2.2.1, hb.2.2.2.2.1, hb.2.2.2.2.2⟩
  have hsum :
      ((get_adaptive_weights bt hour e g ctx).1).1 + ((get_adaptive_weights bt hour e g ctx).1).2 = 1 :=
    hb.1
  rw [hsum]
  norm_num

/-- Witness for C2 at a concrete CRITICAL full-progress rush-hour
context with the default base weight. -/
theorem c2_weights_well_formed_witness :
    ((get_adaptive_weights 0.4 8 "e" "g" exCriticalDoneCtx).1).1 +
      ((get_adaptive_weights 0.4 8 "e" "g" exCriticalDoneCtx).1).2 = 1 ∧
    ((get_adaptive_weights 0.4 8 "e" "g" exCriticalDoneCtx).1).2 ≤ 0.95 := by
  have h := c2_weights_well_formed 0.4 8 "e" "g" exCriticalDoneCtx
    (by norm_num) (by norm_num [exCriticalDoneCtx]) (by norm_num [exCriticalDoneCtx])
  exact ⟨h.1, h.2.2.1⟩

/-- C7: the arrival decision is the logical OR of the four conditions;
route-index-last alone fires, arrived-list membership alone fires, all
four false does not fire; each of the four conditions is evaluated and
every fired rule appears in the reported arrival reason. -/
theorem c7_arrival_decision (a : ArrivalInput) :
    (arrival_decision a =
      (a.in_arrived_list || at_last_edge a || on_goal_edge a || stuck_at_penultimate a)) ∧
    (at_last_edge a = true → arrival_decision a = true) ∧
    (a.in_arrived_list = true → arrival_decision a = true) ∧
    (a.in_arrived_list = false → at_last_edge a = false → on_goal_edge a = false →
      stuck_at_penultimate a = false → arrival_decision a = false) ∧
    (a.in_arrived_list = true → "in arrived list" ∈ arrival_reason a) ∧
    (at_last_edge a = true → "at last route edge" ∈ arrival_reason a) ∧
    (on_goal_edge a = true → "on goal edge" ∈ arrival_reason a) ∧
    (stuck_at_penultimate a = true → "stuck at penultimate edge" ∈ arrival_reason a) := by
  refine ⟨rfl, ?_, ?_, ?_, ?_, ?_, ?_, ?_⟩
  · intro h; simp [arrival_decision, h]
  · intro h; simp [arrival_decision, h]
  · intro h1 h2 h3 h4; simp [arrival_decision, h1, h2, h3, h4]
  · intro h; simp [arrival_reason, h]
  · intro h; simp [arrival_reason, h]
  · intro h; simp [arrival_reason, h]
  · intro h; simp [arrival_reason, h]

/-- Witness for C7: last-route-edge alone fires, arrived-list alone
fires, all-false does not fire, and the fired rule is reported. -/
theorem c7_arrival_decision_witness :
    arrival_decision exArrLast = true ∧ arrival_decision exArrListed = true ∧
    arrival_decision exArrNone = false ∧
    "at last route edge" ∈ arrival_reason exArrLast := by
  refine ⟨(c7_arrival_decision exArrLast).2.1 (by decide),
    (c7_arrival_decision exArrListed).2.2.1 rfl,
    (c7_arrival_decision exArrNone).2.2.2.1 rfl (by decide) (by decide) (by decide),
    (c7_arrival_decision exArrLast).2.2.2.2.2.1 (by decide)⟩

/-- C8: a negative distance-query result makes `calculate_cost` and
`heuristic_estimate` return an infinite cost (modelled `none`) with the
context untouched, instead of raising. -/
theorem c8_negative_distance_infinite (env : RouterEnv) (bt : ℚ) (se n g : String)
    (ctx : RouteContext) (d : ℚ) (hd : d < 0) :
    (env.distanceRoad se n = some d →
      (calculate_cost env bt se n ctx).1 = none ∧ (calculate_cost env bt se n ctx).2 = ctx) ∧
    (env.distanceRoad n g = some d →
      (heuristic_estimate env bt n g ctx).1 = none ∧ (heuristic_estimate env bt n g ctx).2 = ctx) := by
  constructor
  · intro h
    unfold calculate_cost
    rw [h]
    simp [hd]
  · intro h
    unfold heuristic_estimate
    rw [h]
    simp [hd]

/-- Witness for C8 at a concrete environment whose distance queries
return -5. -/
theorem c8_negative_distance_infinite_witness :
    (calculate_cost exNegRouterEnv 0.4 "s" "n" defaultContext).1 = none ∧
    (heuristic_estimate exNegRouterEnv 0.4 "n" "g" defaultContext).1 = none := by
  have h := c8_negative_distance_infinite exNegRouterEnv 0.4 "s" "n" "g" defaultContext (-5)
    (by norm_num)
  exact ⟨(h.1 rfl).1, (h.2 rfl).1⟩

/-- C9: every `calculate_cost` call returning a finite cost overwrites
the context's `distance_traveled` with the queried distance and
`time_accumulated` with the computed travel time and appends one weight
sample, while every other context field is unchanged. -/
theorem c9_calculate_cost_frame (env : RouterEnv) (bt : ℚ) (se n : String)
    (ctx : RouteContext) (c : ℚ)
    (hfin : (calculate_cost env bt se n ctx).1 = some c) :
    ∃ d, env.distanceRoad se n = some d ∧ 0 ≤ d ∧
      (calculate_cost env bt se n ctx).2.distance_traveled = d ∧
      (calculate_cost env bt se n ctx).2.time_accumulated =
        d / max ((env.edgeSpeed n).getD 40) 1 ∧
      (∃ sample, (calculate_cost env bt se n ctx).2.weight_history =
        ctx.weight_history ++ [sample]) ∧
      (calculate_cost env bt se n ctx).2.start_time = ctx.start_time ∧
      (calculate_cost env bt se n ctx).2.total_distance = ctx.total_distance ∧
      (calculate_cost env bt se n ctx).2.severity = ctx.severity ∧
      (calculate_cost env bt se n ctx).2.vehicle_type = ctx.vehicle_type ∧
      (calculate_cost env bt se n ctx).2.signals_passed = ctx.signals_passed ∧
      (calculate_cost env bt se n ctx).2.goal_edge = ctx.goal_edge := by
  unfold calculate_cost at hfin ⊢
  cases hD : env.distanceRoad se n with
  | none =>
    rw [hD] at hfin
    simp at hfin
  | some d =>
    rw [hD] at hfin
    by_cases hneg : d < 0
    · simp [hneg] at hfin
    · cases hG : ctx.goal_edge with
      | none =>
        simp [hG, hneg] at hfin
      | some goal =>
        refine ⟨d, rfl, le_of_not_lt hneg, ?_, ?_, ?_, ?_, ?_, ?_, ?_, ?_, ?_⟩ <;>
          simp [hG, hneg, get_adaptive_weights]

@[simp] theorem captureOriginal_gridlock (s : TLCState) (t : String) (q : Option String) :
    (captureOriginal s t q).gridlock_tls = s.gridlock_tls := by
  unfold captureOriginal
  split <;> rfl

@[simp] theorem captureOriginal_cooldowns (s : TLCState) (t : String) (q : Option String) :
    (captureOriginal s t q).cooldowns = s.cooldowns := by
  unfold captureOriginal
  split <;> rfl

@[simp] theorem captureOriginal_counts (s : TLCState) (t : String) (q : Option String) :
    (captureOriginal s t q).fallback_counts = s.fallback_counts := by
  unfold captureOriginal
  split <;> rfl

@[simp] theorem captureOriginal_stuck (s : TLCState) (t : String) (q : Option String) :
    (captureOriginal s t q).stuck_info = s.stuck_info := by
  unfold captureOriginal
  split <;> rfl

@[simp] theorem ensureStuckInfo_gridlock (s : TLCState) (v : String) :
    (ensureStuckInfo s v).gridlock_tls = s.gridlock_tls := by
  unfold ensureStuckInfo
  split <;> rfl

@[simp] theorem ensureStuckInfo_cooldowns (s : TLCState) (v : String) :
    (ensureStuckInfo s v).cooldowns = s.cooldowns := by
  unfold ensureStuckInfo
  split <;> rfl

@[simp] theorem ensureStuckInfo_counts (s : TLCState) (v : String) :
    (ensureStuckInfo s v).fallback_counts = s.fallback_counts := by
  unfold ensureStuckInfo
  split <;> rfl

@[simp] theorem ensureStuckInfo_programs (s : TLCState) (v : String) :
    (ensureStuckInfo s v).original_programs = s.original_programs := by
  unfold ensureStuckInfo
  split <;> rfl

theorem ensureStuckInfo_alGet (s : TLCState) (v : String) :
    (alGet (ensureStuckInfo s v).stuck_info v).getD ⟨none, none⟩ =
      (alGet s.stuck_info v).getD ⟨none, none⟩ := by
  unfold ensureStuckInfo
  cases h : alGet s.stuck_info v with
  | none => simp [h, alGet_alSet_self]
  | some i => simp [h]

theorem cooldownActive_capture (s : TLCState) (t t' : String) (q : Option String) (time : ℚ) :
    cooldownActive (captureOriginal s t q) t' time = cooldownActive s t' time := by
  unfold cooldownActive
  rw [captureOriginal_cooldowns]

theorem stuckStep_shape (p : PreemptParams) (env : CallEnv) (vid tls : String)
    (op : Option String) (s : TLCState) :
    ((stuckStepState (stuckStep p env vid tls op s)).gridlock_tls = s.gridlock_tls ∧
     (stuckStepState (stuckStep p env vid tls op s)).fallback_counts = s.fallback_counts) ∨
    ((stuckStepState (stuckStep p env vid tls op s)).fallback_counts =
        alSet s.fallback_counts tls ((alGet s.fallback_counts tls).getD 0 + 1) ∧
     (((stuckStepState (stuckStep p env vid tls op s)).gridlock_tls = tls :: s.gridlock_tls ∧
        p.max_fallbacks ≤ (alGet s.fallback_counts tls).getD 0 + 1) ∨
      ((stuckStepState (stuckStep p env vid tls op s)).gridlock_tls = s.gridlock_tls ∧
        ¬ p.max_fallbacks ≤ (alGet s.fallback_counts tls).getD 0 + 1))) := by
  unfold stuckStep
  dsimp only
  by_cases h1 : ((alGet s.stuck_info vid).getD ⟨none, none⟩).last_tls = some tls
  · rw [if_pos h1]
    by_cases h2 : env.speed < p.stuck_speed
    · rw [if_pos h2]
      cases h3 : ((alGet s.stuck_info vid).getD ⟨none, none⟩).stuck_start with
      | none => exact Or.inl ⟨rfl, rfl⟩
      | some t0 =>
        dsimp only
        by_cases h4 : p.stuck_timeout < env.sim_time - t0
        · rw [if_pos h4]
          by_cases h5 : p.max_fallbacks ≤ (alGet s.fallback_counts tls).getD 0 + 1
          · rw [if_pos h5]
            exact Or.inr ⟨rfl, Or.inl ⟨rfl, h5⟩⟩
          · rw [if_neg h5]
            cases op with
            | some prog =>
              dsimp only
              by_cases h6 : env.setProgram_ok
              · rw [if_pos h6]
                exact Or.inr ⟨rfl, Or.inr ⟨rfl, h5⟩⟩
              · rw [if_neg h6]
                exact Or.inr ⟨rfl, Or.inr ⟨rfl, h5⟩⟩
            | none => exact Or.inr ⟨rfl, Or.inr ⟨rfl, h5⟩⟩
        · rw [if_neg h4]
          exact Or.inl ⟨rfl, rfl⟩
    · rw [if_neg h2]
      exact Or.inl ⟨rfl, rfl⟩
  · rw [if_neg h1]
    exact Or.inl ⟨rfl, rfl⟩

theorem stuckStep_gridlock_mono (p : PreemptParams) (env : CallEnv) (vid tls : String)
    (op : Option String) (s : TLCState) (t : String) (h : t ∈ s.gridlock_tls) :
    t ∈ (stuckStepState (stuckStep p env vid tls op s)).gridlock_tls := by
  rcases stuckStep_shape p env vid tls op s with ⟨hg, _⟩ | ⟨_, ⟨hg, _⟩ | ⟨hg, _⟩⟩
  · rw [hg]; exact h
  · rw [hg]; exact List.mem_cons_of_mem _ h
  · rw [hg]; exact h

theorem stuckStep_inv (p : PreemptParams) (env : CallEnv) (vid tls : String)
    (op : Option String) (s : TLCState) (h : gridlockInv p s) :
    gridlockInv p (stuckStepState (stuckStep p env vid tls op s)) := by
  rcases stuckStep_shape p env vid tls op s with ⟨hg, hc⟩ | ⟨hc, ⟨hg, hmax⟩ | ⟨hg, hmax⟩⟩
  · intro t ht
    rw [hc]
    exact h t (hg ▸ ht)
  · intro t ht
    rw [hg] at ht
    rw [hc]
    rcases List.mem_cons.mp ht with rfl | ht'
    · rw [alGet_alSet_self]
      simpa using hmax
    · by_cases he : tls = t
      · subst he
        rw [alGet_alSet_self]
        simpa using hmax
      · rw [alGet_alSet_ne _ _ _ _ he]
        exact h t ht'
  · intro t ht
    rw [hg] at ht
    rw [hc]
    by_cases he : tls = t
    · subst he
      rw [alGet_alSet_self]
      have := h tls ht
      simp only [Option.getD_some]
      omega
    · rw [alGet_alSet_ne _ _ _ _ he]
      exact h t ht

theorem gridlockInv_of_fields (p : PreemptParams) {s s' : TLCState}
    (hg : s'.gridlock_tls = s.gridlock_tls) (hc : s'.fallback_counts = s.fallback_counts)
    (h : gridlockInv p s) : gridlockInv p s' := by
  intro t ht
  rw [hc]
  exact h t (hg ▸ ht)

theorem preempt_gridlock_mono (p : PreemptParams) (env : CallEnv) (vid : String)
    (s : TLCState) (t : String) (h : t ∈ s.gridlock_tls) :
    t ∈ (preempt p env vid s).2.1.gridlock_tls := by
  unfold preempt
  split
  · exact h
  · cases hn : env.nextTLS with
    | none => exact h
    | some tup =>
      obtain ⟨tls, idx, dist, st⟩ := tup
      dsimp only
      split
      · simpa using h
      · split
        · simpa using h
        · have hm := stuckStep_gridlock_mono p env vid tls
            ((alGet (captureOriginal s tls env.programQuery).original_programs tls).getD none)
            (ensureStuckInfo (captureOriginal s tls env.programQuery) vid) t (by simpa using h)
          cases hstep : stuckStep p env vid tls
              ((alGet (captureOriginal s tls env.programQuery).original_programs tls).getD none)
              (ensureStuckInfo (captureOriginal s tls env.programQuery) vid) with
          | inl pr =>
            obtain ⟨s3, acts⟩ := pr
            rw [hstep] at hm
            simpa [stuckStepState] using hm
          | inr s3 =>
            rw [hstep] at hm
            simpa [stuckStepState] using hm

theorem preempt_inv (p : PreemptParams) (env : CallEnv) (vid : String) (s : TLCState)
    (h : gridlockInv p s) : gridlockInv p (preempt p env vid s).2.1 := by
  unfold preempt
  split
  · exact h
  · cases hn : env.nextTLS with
    | none => exact h
    | some tup =>
      obtain ⟨tls, idx, dist, st⟩ := tup
      dsimp only
      have hcap : gridlockInv p (captureOriginal s tls env.programQuery) :=
        gridlockInv_of_fields p (captureOriginal_gridlock s tls env.programQuery)
          (captureOriginal_counts s tls env.programQuery) h
      split
      · exact hcap
      · split
        · exact hcap
        · have hens :
              gridlockInv p (ensureStuckInfo (captureOriginal s tls env.programQuery) vid) :=
            gridlockInv_of_fields p (by simp) (by simp) hcap
          have hstep := stuckStep_inv p env vid tls
            ((alGet (captureOriginal s tls env.programQuery).original_programs tls).getD none)
            (ensureStuckInfo (captureOriginal s tls env.programQuery) vid) hens
          cases heq : stuckStep p env vid tls
              ((alGet (captureOriginal s tls env.programQuery).original_programs tls).getD none)
              (ensureStuckInfo (captureOriginal s tls env.programQuery) vid) with
          | inl pr =>
            obtain ⟨s3, acts⟩ := pr
            rw [heq] at hstep
            simpa [stuckStepState] using hstep
          | inr s3 =>
            rw [heq] at hstep
            simpa [stuckStepState] using hstep

theorem runCalls_inv (p : PreemptParams) (vid : String) (es : List CallEnv) (s : TLCState)
    (h : gridlockInv p s) : gridlockInv p (runCalls p vid s es) := by
  induction es generalizing s with
  | nil => simpa [runCalls] using h
  | cons e rest ih =>
    rw [runCalls]
    exact ih _ (preempt_inv p e vid s h)

theorem preempt_gridlocked_noop (p : PreemptParams) (env : CallEnv) (vid : String)
    (s : TLCState) (tls : String) (idx : ℕ) (dist : ℚ) (st : Char)
    (hn : env.nextTLS = some (tls, idx, dist, st)) (hg : tls ∈ s.gridlock_tls) :
    ∃ s', preempt p env vid s = (false, s', []) := by
  unfold preempt
  rw [hn]
  split
  · exact ⟨s, rfl⟩
  · dsimp only
    split
    · exact ⟨_, rfl⟩
    · split
      · exact ⟨_, rfl⟩
      · rename_i hgc
        exact absurd (by simpa using hg) hgc

theorem ensureStuckInfo_of_present (s : TLCState) (v : String)
    (h : (alGet s.stuck_info v).isSome = true) : ensureStuckInfo s v = s := by
  unfold ensureStuckInfo
  rw [if_neg]
  simp [Option.isNone_iff_eq_none]
  exact Option.isSome_iff_ne_none.mp h

theorem preempt_cooldown_noop (p : PreemptParams) (env : CallEnv) (vid : String)
    (s : TLCState) (tls : String) (idx : ℕ) (dist : ℚ) (st : Char)
    (hn : env.nextTLS = some (tls, idx, dist, st))
    (hcool : cooldownActive s tls env.sim_time = true) :
    ∃ s', preempt p env vid s = (false, s', []) := by
  unfold preempt
  rw [hn]
  split
  · exact ⟨s, rfl⟩
  · dsimp only
    rw [if_pos (by rw [cooldownActive_capture]; exact hcool)]
    exact ⟨_, rfl⟩

theorem preempt_to_stuck (p : PreemptParams) (env : CallEnv) (vid : String) (s : TLCState)
    (tls : String) (idx : ℕ) (dist : ℚ) (st : Char)
    (hid : env.in_id_list = true)
    (hn : env.nextTLS = some (tls, idx, dist, st))
    (hcool : cooldownActive s tls env.sim_time = false)
    (hg : tls ∉ s.gridlock_tls) :
    preempt p env vid s =
      (match stuckStep p env vid tls
          ((alGet (captureOriginal s tls env.programQuery).original_programs tls).getD none)
          (ensureStuckInfo (captureOriginal s tls env.programQuery) vid) with
       | Sum.inl (s3, acts) => (false, s3, acts)
       | Sum.inr s3 =>
         ((preemptAttempt p env tls idx dist st).1, s3,
           (preemptAttempt p env tls idx dist st).2)) := by
  unfold preempt
  rw [hn]
  rw [if_neg (by simp [hid])]
  dsimp only
  rw [if_neg (by rw [cooldownActive_capture]; simp [hcool])]
  rw [if_neg (by simpa using hg)]

theorem stuckStep_fallback_gridlock (p : PreemptParams) (env : CallEnv) (vid tls : String)
    (op : Option String) (s : TLCState) (info : StuckInfo) (t0 : ℚ)
    (hinfo : alGet s.stuck_info vid = some info)
    (hlast : info.last_tls = some tls)
    (hspeed : env.speed < p.stuck_speed)
    (hstart : info.stuck_start = some t0)
    (htime : p.stuck_timeout < env.sim_time - t0)
    (hmax : p.max_fallbacks ≤ (alGet s.fallback_counts tls).getD 0 + 1) :
    stuckStep p env vid tls op s =
      Sum.inl ({ s with
        fallback_counts := alSet s.fallback_counts tls ((alGet s.fallback_counts tls).getD 0 + 1)
        gridlock_tls := tls :: s.gridlock_tls
        gridlock_db := tls :: s.gridlock_db
        stuck_info := alSet s.stuck_info vid ⟨none, info.last_tls⟩ }, []) := by
  unfold stuckStep
  rw [hinfo]
  simp only [Option.getD_some]
  rw [if_pos hlast, if_pos hspeed, hstart]
  dsimp only
  rw [if_pos htime, if_pos hmax]

theorem stuckStep_fallback_normal (p : PreemptParams) (env : CallEnv) (vid tls : String)
    (prog : String) (s : TLCState) (info : StuckInfo) (t0 : ℚ)
    (hinfo : alGet s.stuck_info vid = some info)
    (hlast : info.last_tls = some tls)
    (hspeed : env.speed < p.stuck_speed)
    (hstart : info.stuck_start = some t0)
    (htime : p.stuck_timeout < env.sim_time - t0)
    (hmax : ¬ p.max_fallbacks ≤ (alGet s.fallback_counts tls).getD 0 + 1)
    (hok : env.setProgram_ok = true) :
    stuckStep p env vid tls (some prog) s =
      Sum.inl ({ s with
        fallback_counts := alSet s.fallback_counts tls ((alGet s.fallback_counts tls).getD 0 + 1)
        cooldowns := alSet s.cooldowns tls (env.sim_time + p.cooldown_period)
        stuck_info := alSet s.stuck_info vid ⟨none, info.last_tls⟩ },
        [SignalAction.setProgram tls prog]) := by
  unfold stuckStep
  rw [hinfo]
  simp only [Option.getD_some]
  rw [if_pos hlast, if_pos hspeed, hstart]
  dsimp only
  rw [if_pos htime, if_neg hmax, if_pos hok]

theorem stuckFires_capture_ensure (p : PreemptParams) (env : CallEnv) (vid tls t : String)
    (q : Option String) (s : TLCState) :
    stuckFallbackFires p env vid tls (ensureStuckInfo (captureOriginal s t q) vid) =
      stuckFallbackFires p env vid tls s := by
  unfold stuckFallbackFires
  dsimp only
  rw [ensureStuckInfo_alGet, captureOriginal_stuck]

theorem stuckStep_inr_of_not_fires (p : PreemptParams) (env : CallEnv) (vid tls : String)
    (op : Option String) (s : TLCState)
    (hf : stuckFallbackFires p env vid tls s = false) :
    ∃ s', stuckStep p env vid tls op s = Sum.inr s' := by
  unfold stuckFallbackFires at hf
  dsimp only at hf
  unfold stuckStep
  dsimp only
  by_cases h1 : ((alGet s.stuck_info vid).getD ⟨none, none⟩).last_tls = some tls
  · rw [if_pos h1]
    by_cases h2 : env.speed < p.stuck_speed
    · rw [if_pos h2]
      cases h3 : ((alGet s.stuck_info vid).getD ⟨none, none⟩).stuck_start with
      | none => exact ⟨_, rfl⟩
      | some t0 =>
        dsimp only
        by_cases h4 : p.stuck_timeout < env.sim_time - t0
        · exfalso
          rw [h1, h3] at hf
          simp [h2, h4] at hf
        · rw [if_neg h4]
          exact ⟨_, rfl⟩
    · rw [if_neg h2]
      exact ⟨_, rfl⟩
  · rw [if_neg h1]
    exact ⟨_, rfl⟩

theorem preemptAttempt_skip (p : PreemptParams) (env : CallEnv) (tls : String) (idx : ℕ)
    (dist : ℚ) (st : Char)
    (h : ¬ (dist ≤ p.detection_range ∧ (st = 'r' ∨ st = 'y'))) :
    preemptAttempt p env tls idx dist st = (false, []) := by
  unfold preemptAttempt
  rw [if_neg h]

/-- C3: once the fallback count reaches `max_fallbacks` the intersection
is marked gridlocked in that same call; every call targeting a
gridlocked intersection returns False with no signal action (whatever
the cooldown state); the gridlock flag is never removed; and session
runs from the empty registries keep the invariant that gridlock implies
`fallback_count ≥ max_fallbacks`. -/
theorem c3_gridlock_absorbing :
    (∀ (p : PreemptParams) (env : CallEnv) (vid : String) (s : TLCState)
        (tls : String) (idx : ℕ) (dist : ℚ) (st : Char),
      env.nextTLS = some (tls, idx, dist, st) → tls ∈ s.gridlock_tls →
      (preempt p env vid s).1 = false ∧ (preempt p env vid s).2.2 = []) ∧
    (∀ (p : PreemptParams) (env : CallEnv) (vid : String) (s : TLCState) (tls : String),
      tls ∈ s.gridlock_tls → tls ∈ (preempt p env vid s).2.1.gridlock_tls) ∧
    (∀ (p : PreemptParams) (vid : String) (es : List CallEnv),
      gridlockInv p (runCalls p vid initialTLC es)) ∧
    (∀ (p : PreemptParams) (env : CallEnv) (vid : String) (s : TLCState)
        (tls : String) (idx : ℕ) (dist : ℚ) (st : Char) (info : StuckInfo) (t0 : ℚ),
      env.in_id_list = true →
      env.nextTLS = some (tls, idx, dist, st) →
      cooldownActive s tls env.sim_time = false →
      tls ∉ s.gridlock_tls →
      alGet s.stuck_info vid = some info →
      info.last_tls = some tls →
      env.speed < p.stuck_speed →
      info.stuck_start = some t0 →
      p.stuck_timeout < env.sim_time - t0 →
      p.max_fallbacks ≤ (alGet s.fallback_counts tls).getD 0 + 1 →
      (preempt p env vid s).1 = false ∧
      tls ∈ (preempt p env vid s).2.1.gridlock_tls ∧
      (alGet (preempt p env vid s).2.1.fallback_counts tls).getD 0 =
        (alGet s.fallback_counts tls).getD 0 + 1 ∧
      (preempt p env vid s).2.2 = []) := by
  refine ⟨?_, ?_, ?_, ?_⟩
  · intro p env vid s tls idx dist st hn hg
    obtain ⟨s', he⟩ := preempt_gridlocked_noop p env vid s tls idx dist st hn hg
    rw [he]
    exact ⟨rfl, rfl⟩
  · intro p env vid s tls hg
    exact preempt_gridlock_mono p env vid s tls hg
  · intro p vid es
    refine runCalls_inv p vid es initialTLC ?_
    intro t ht
    simp [initialTLC] at ht
  · intro p env vid s tls idx dist st info t0 hid hn hcool hg hinfo hlast hspeed hstart htime hmax
    have hinfo' : alGet (captureOriginal s tls env.programQuery).stuck_info vid = some info := by
      rw [captureOriginal_stuck]
      exact hinfo
    have hs2 : ensureStuckInfo (captureOriginal s tls env.programQuery) vid =
        captureOriginal s tls env.programQuery := by
      apply ensureStuckInfo_of_present
      rw [hinfo']
      rfl
    have hmax' : p.max_fallbacks ≤
        (alGet (captureOriginal s tls env.programQuery).fallback_counts tls).getD 0 + 1 := by
      rw [captureOriginal_counts]
      exact hmax
    have hstep := stuckStep_fallback_gridlock p env vid tls
      ((alGet (captureOriginal s tls env.programQuery).original_programs tls).getD none)
      (captureOriginal s tls env.programQuery) info t0 hinfo' hlast hspeed hstart htime hmax'
    have hpre := preempt_to_stuck p env vid s tls idx dist st hid hn hcool hg
    rw [hs2, hstep] at hpre
    rw [hpre]
    refine ⟨rfl, ?_, ?_, rfl⟩
    · exact List.mem_cons_self _ _
    · simp [alGet_alSet_self]

/-- Witness for C3: a gridlocked J1 stays unresponsive and gridlocked,
the empty-session invariant holds, and a third fallback at J1 with
`max_fallbacks = 3` gridlocks it. -/
theorem c3_gridlock_absorbing_witness :
    ((preempt defaultParams (exEnvAt 110) "ambulance" exGridlockedState).1 = false ∧
      (preempt defaultParams (exEnvAt 110) "ambulance" exGridlockedState).2.2 = []) ∧
    "J1" ∈ (preempt defaultParams (exEnvAt 110) "ambulance" exGridlockedState).2.1.gridlock_tls ∧
    gridlockInv defaultParams (runCalls defaultParams "ambulance" initialTLC [exEnvAt 111]) ∧
    ((preempt defaultParams (exEnvAt 111) "ambulance" exAlmostGridlocked).1 = false ∧
      "J1" ∈ (preempt defaultParams (exEnvAt 111) "ambulance" exAlmostGridlocked).2.1.gridlock_tls ∧
      (alGet (preempt defaultParams (exEnvAt 111) "ambulance"
        exAlmostGridlocked).2.1.fallback_counts "J1").getD 0 =
        (alGet exAlmostGridlocked.fallback_counts "J1").getD 0 + 1 ∧
      (preempt defaultParams (exEnvAt 111) "ambulance" exAlmostGridlocked).2.2 = []) := by
  refine ⟨?_, ?_, ?_, ?_⟩
  · exact c3_gridlock_absorbing.1 defaultParams (exEnvAt 110) "ambulance" exGridlockedState
      "J1" 0 600 'r' rfl (by decide)
  · exact c3_gridlock_absorbing.2.1 defaultParams (exEnvAt 110) "ambulance" exGridlockedState
      "J1" (by decide)
  · exact c3_gridlock_absorbing.2.2.1 defaultParams "ambulance" [exEnvAt 111]
  · exact c3_gridlock_absorbing.2.2.2 defaultParams (exEnvAt 111) "ambulance"
      exAlmostGridlocked "J1" 0 600 'r' ⟨some 100, some "J1"⟩ 100 rfl rfl
      (by simp [cooldownActive, exAlmostGridlocked, alGet])
      (by decide)
      (by simp [exAlmostGridlocked, alGet])
      rfl
      (by norm_num [exEnvAt, defaultParams])
      rfl
      (by norm_num [exEnvAt, defaultParams])
      (by simp [exAlmostGridlocked, alGet, defaultParams])

/-- Counterexample to C4 as stated: at `t = 110` the ambulance has had
speed below `stuck_speed` at the same tracked signal J1 for exactly
`stuck_timeout = 10` seconds (`stuck_start = 100`), yet the call
triggers no fallback at all: the fallback-count registry stays empty,
no signal action is issued, and the stuck timer is not reset.  The
source fires the fallback only when the timer strictly exceeds
`stuck_timeout` (line 506 uses a strict comparison). -/
theorem c4_exact_timeout_no_fallback :
    (exEnvAt 110).sim_time - 100 = defaultParams.stuck_timeout ∧
    alGet exStuckState.stuck_info "ambulance" = some ⟨some 100, some "J1"⟩ ∧
    (preempt defaultParams (exEnvAt 110) "ambulance" exStuckState).2.1.fallback_counts = [] ∧
    (preempt defaultParams (exEnvAt 110) "ambulance" exStuckState).2.2 = [] ∧
    alGet (preempt defaultParams (exEnvAt 110) "ambulance" exStuckState).2.1.stuck_info
      "ambulance" = some ⟨some 100, some "J1"⟩ := by
  refine ⟨by norm_num [exEnvAt, defaultParams], by simp [exStuckState, alGet], ?_, ?_, ?_⟩ <;>
    norm_num [preempt, captureOriginal, ensureStuckInfo, cooldownActive, stuckStep,
      preemptAttempt, alGet, alSet, exEnvAt, exStuckState, defaultParams]

/-- C4 amended: a vehicle whose next signal equals the tracked one and
whose speed stays below `stuck_speed` for strictly more than
`stuck_timeout` seconds triggers exactly one fallback: the count rises
by one, the known original program is restored, the cooldown is set to
`now + cooldown_period` and the stuck timer is reset; and any call
targeting an intersection whose cooldown is still running returns False
with no signal action. -/
theorem c4_stuck_fallback_amended :
    (∀ (p : PreemptParams) (env : CallEnv) (vid : String) (s : TLCState)
        (tls prog : String) (idx : ℕ) (dist : ℚ) (st : Char) (info : StuckInfo) (t0 : ℚ),
      env.in_id_list = true →
      env.nextTLS = some (tls, idx, dist, st) →
      cooldownActive s tls env.sim_time = false →
      tls ∉ s.gridlock_tls →
      alGet s.stuck_info vid = some info →
      info.last_tls = some tls →
      env.speed < p.stuck_speed →
      info.stuck_start = some t0 →
      p.stuck_timeout < env.sim_time - t0 →
      ¬ p.max_fallbacks ≤ (alGet s.fallback_counts tls).getD 0 + 1 →
      alGet (captureOriginal s tls env.programQuery).original_programs tls =
        some (some prog) →
      env.setProgram_ok = true →
      (preempt p env vid s).1 = false ∧
      (preempt p env vid s).2.2 = [SignalAction.setProgram tls prog] ∧
      (alGet (preempt p env vid s).2.1.fallback_counts tls).getD 0 =
        (alGet s.fallback_counts tls).getD 0 + 1 ∧
      alGet (preempt p env vid s).2.1.cooldowns tls =
        some (env.sim_time + p.cooldown_period) ∧
      alGet (preempt p env vid s).2.1.stuck_info vid = some ⟨none, some tls⟩) ∧
    (∀ (p : PreemptParams) (env : CallEnv) (vid : String) (s : TLCState)
        (tls : String) (idx : ℕ) (dist : ℚ) (st : Char),
      env.nextTLS = some (tls, idx, dist, st) →
      cooldownActive s tls env.sim_time = true →
      (preempt p env vid s).1 = false ∧ (preempt p env vid s).2.2 = []) := by
  constructor
  · intro p env vid s tls prog idx dist st info t0 hid hn hcool hg hinfo hlast hspeed hstart
      htime hmax hprog hok
    have hinfo' : alGet (captureOriginal s tls env.programQuery).stuck_info vid = some info := by
      rw [captureOriginal_stuck]
      exact hinfo
    have hs2 : ensureStuckInfo (captureOriginal s tls env.programQuery) vid =
        captureOriginal s tls env.programQuery := by
      apply ensureStuckInfo_of_present
      rw [hinfo']
      rfl
    have hmax' : ¬ p.max_fallbacks ≤
        (alGet (captureOriginal s tls env.programQuery).fallback_counts tls).getD 0 + 1 := by
      rw [captureOriginal_counts]
      exact hmax
    have hop : (alGet (captureOriginal s tls env.programQuery).original_programs tls).getD none =
        some prog := by
      rw [hprog]
      rfl
    have hstep := stuckStep_fallback_normal p env vid tls prog
      (captureOriginal s tls env.programQuery) info t0 hinfo' hlast hspeed hstart htime hmax' hok
    have hpre := preempt_to_stuck p env vid s tls idx dist st hid hn hcool hg
    rw [hs2, hop, hstep] at hpre
    rw [hpre]
    refine ⟨rfl, ?_, ?_, ?_, ?_⟩
    · rw [hlast]
    · simp [alGet_alSet_self]
    · simp [alGet_alSet_self]
    · simp [alGet_alSet_self, hlast]
  · intro p env vid s tls idx dist st hn hcool
    obtain ⟨s', he⟩ := preempt_cooldown_noop p env vid s tls idx dist st hn hcool
    rw [he]
    exact ⟨rfl, rfl⟩

/-- Witness for C4 amended: the first over-timeout fallback at J1 at
`t = 111`, and cooldown suppression at `t = 200 < 230`. -/
theorem c4_stuck_fallback_amended_witness :
    ((preempt defaultParams (exEnvAt 111) "ambulance" exStuckState).1 = false ∧
      (preempt defaultParams (exEnvAt 111) "ambulance" exStuckState).2.2 =
        [SignalAction.setProgram "J1" "0"] ∧
      (alGet (preempt defaultParams (exEnvAt 111) "ambulance"
        exStuckState).2.1.fallback_counts "J1").getD 0 =
        (alGet exStuckState.fallback_counts "J1").getD 0 + 1 ∧
      alGet (preempt defaultParams (exEnvAt 111) "ambulance" exStuckState).2.1.cooldowns "J1" =
        some ((exEnvAt 111).sim_time + defaultParams.cooldown_period) ∧
      alGet (preempt defaultParams (exEnvAt 111) "ambulance" exStuckState).2.1.stuck_info
        "ambulance" = some ⟨none, some "J1"⟩) ∧
    ((preempt defaultParams (exEnvAt 200) "ambulance" exCooldownState).1 = false ∧
      (preempt defaultParams (exEnvAt 200) "ambulance" exCooldownState).2.2 = []) := by
  constructor
  · exact c4_stuck_fallback_amended.1 defaultParams (exEnvAt 111) "ambulance" exStuckState
      "J1" "0" 0 600 'r' ⟨some 100, some "J1"⟩ 100 rfl rfl
      (by simp [cooldownActive, exStuckState, alGet])
      (by decide)
      (by simp [exStuckState, alGet])
      rfl
      (by norm_num [exEnvAt, defaultParams])
      rfl
      (by norm_num [exEnvAt, defaultParams])
      (by simp [exStuckState, alGet, defaultParams])
      (by simp [captureOriginal, exStuckState, alGet])
      rfl
  · exact c4_stuck_fallback_amended.2 defaultParams (exEnvAt 200) "ambulance" exCooldownState
      "J1" 0 600 'r' rfl
      (by norm_num [cooldownActive, exCooldownState, alGet, exEnvAt])

/-- Counterexample to C10 as stated: at `t = 111` the next signal J1 is
600 m away, beyond the 500 m detection range, yet the call performs a
program change (the stuck-timeout fallback restores the original
program) while returning False - so beyond-range calls are not always
action-free. -/
theorem c10_beyond_range_program_change :
    (exEnvAt 111).nextTLS = some ("J1", 0, 600, 'r') ∧
    defaultParams.detection_range < 600 ∧
    (preempt defaultParams (exEnvAt 111) "ambulance" exStuckState).1 = false ∧
    (preempt defaultParams (exEnvAt 111) "ambulance" exStuckState).2.2 =
      [SignalAction.setProgram "J1" "0"] := by
  refine ⟨rfl, by norm_num [defaultParams], ?_, ?_⟩ <;>
    norm_num [preempt, captureOriginal, ensureStuckInfo, cooldownActive, stuckStep,
      preemptAttempt, alGet, alSet, exEnvAt, exStuckState, defaultParams]

/-- C10 amended: when the next signal is beyond `detection_range` or
its state character is neither r nor y, and the stuck-timeout fallback
does not fire in the same call, `preempt_traffic_lights` performs no
phase or program change and returns False; when the fallback does fire
a program restoration may still be issued although the call returns
False. -/
theorem c10_no_preempt_outside_range_amended
    (p : PreemptParams) (env : CallEnv) (vid : String) (s : TLCState)
    (tls : String) (idx : ℕ) (dist : ℚ) (st : Char)
    (hn : env.nextTLS = some (tls, idx, dist, st))
    (hout : p.detection_range < dist ∨ (st ≠ 'r' ∧ st ≠ 'y'))
    (hf : stuckFallbackFires p env vid tls s = false) :
    (preempt p env vid s).1 = false ∧ (preempt p env vid s).2.2 = [] := by
  cases hidv : env.in_id_list with
  | false =>
    unfold preempt
    rw [if_pos (by rw [hidv])]
    exact ⟨rfl, rfl⟩
  | true =>
    cases hcv : cooldownActive s tls env.sim_time with
    | true =>
      obtain ⟨s', he⟩ := preempt_cooldown_noop p env vid s tls idx dist st hn hcv
      rw [he]
      exact ⟨rfl, rfl⟩
    | false =>
      by_cases hg : tls ∈ s.gridlock_tls
      · obtain ⟨s', he⟩ := preempt_gridlocked_noop p env vid s tls idx dist st hn hg
        rw [he]
        exact ⟨rfl, rfl⟩
      · have hf2 : stuckFallbackFires p env vid tls
            (ensureStuckInfo (captureOriginal s tls env.programQuery) vid) = false := by
          rw [stuckFires_capture_ensure]
          exact hf
        obtain ⟨s', hstep⟩ := stuckStep_inr_of_not_fires p env vid tls
          ((alGet (captureOriginal s tls env.programQuery).original_programs tls).getD none)
          (ensureStuckInfo (captureOriginal s tls env.programQuery) vid) hf2
        have hpre := preempt_to_stuck p env vid s tls idx dist st hidv hn hcv hg
        rw [hstep] at hpre
        have hskip : preemptAttempt p env tls idx dist st = (false, []) := by
          apply preemptAttempt_skip
          rintro ⟨hle, hor⟩
          rcases hout with hd | ⟨hr, hy⟩
          · exact absurd hle (not_le.mpr hd)
          · rcases hor with h | h
            · exact hr h
            · exact hy h
        rw [hpre, hskip]
        exact ⟨rfl, rfl⟩

/-- Witness for C10 amended: J1 at 600 m with the stuck timer at
exactly the timeout, so no fallback fires and the call is action-free. -/
theorem c10_no_preempt_outside_range_amended_witness :
    (preempt defaultParams (exEnvAt 110) "ambulance" exStuckState).1 = false ∧
    (preempt defaultParams (exEnvAt 110) "ambulance" exStuckState).2.2 = [] :=
  c10_no_preempt_outside_range_amended defaultParams (exEnvAt 110) "ambulance" exStuckState
    "J1" 0 600 'r' rfl
    (Or.inl (by norm_num [defaultParams]))
    (by norm_num [stuckFallbackFires, exStuckState, exEnvAt, defaultParams, alGet])

/-- Counterexample to C5 as stated: the external engine returns an
unusable empty route, yet `create_route` does not build the route with
the fallback greedy walk - it returns the engine retry result
`[x, y]`, while the spec-modelled greedy walk (which cannot leave the
start edge in this environment and degrades) returns `[s, g]`.
`create_route` never calls `find_next_edge`. -/
theorem c5_fallback_not_greedy_walk :
    exRetryCalls.findRouteWeighted = some [] ∧
    (create_route exRetryCalls 0.4 "s" "g" defaultContext).1 = ["x", "y"] ∧
    specGreedyWalk exRouterEnv 0.4 "s" "g" 1000 defaultContext = ["s", "g"] ∧
    (create_route exRetryCalls 0.4 "s" "g" defaultContext).1 ≠
      specGreedyWalk exRouterEnv 0.4 "s" "g" 1000 defaultContext := by
  have h1 : (create_route exRetryCalls 0.4 "s" "g" defaultContext).1 = ["x", "y"] := by
    simp [create_route, exRetryCalls]
  have h2 : specGreedyWalk exRouterEnv 0.4 "s" "g" 1000 defaultContext = ["s", "g"] := by
    rfl
  refine ⟨rfl, h1, h2, ?_⟩
  rw [h1, h2]
  simp

/-- C5 amended: when the external engine returns a route of fewer than
2 edges, `create_route` resets the edge efforts and retries the
external engine; the returned route is the retry result when it is
non-empty, else `[start, goal]` - the greedy walk (`find_next_edge`)
is not involved. -/
theorem c5_engine_retry_amended (calls : RoutingCalls) (bt : ℚ) (se ge : String)
    (ctx : RouteContext) (td : ℚ) (r : List String)
    (hd : calls.distStartGoal = some td)
    (hw : calls.findRouteWeighted = some r)
    (hlen : r.length ≤ 1) :
    (create_route calls bt se ge ctx).1 =
      (match calls.findRouteDefault with
       | none => [se, ge]
       | some r2 => if r2.isEmpty then [se, ge] else r2) ∧
    (create_route calls bt se ge ctx).2.2 =
      setAdaptiveEfforts bt ctx.severity calls.edges ++ resetEfforts calls.edges := by
  unfold create_route
  rw [hd, hw]
  dsimp only
  rw [if_pos hlen]
  cases hdef : calls.findRouteDefault with
  | none => exact ⟨rfl, rfl⟩
  | some r2 => exact ⟨rfl, rfl⟩

/-- Witness for C5 amended at the concrete retry environment. -/
theorem c5_engine_retry_amended_witness :
    (create_route exRetryCalls 0.4 "s" "g" defaultContext).1 = ["x", "y"] ∧
    (create_route exRetryCalls 0.4 "s" "g" defaultContext).2.2 = [] := by
  have h := c5_engine_retry_amended exRetryCalls 0.4 "s" "g" defaultContext 1000 []
    rfl rfl (by norm_num)
  constructor
  · rw [h.1]
    simp [exRetryCalls]
  · rw [h.2]
    rfl

/-- Counterexample to C6's two-edge-degradation clause: both engine
calls return unusable routes of fewer than 2 edges (the retry returns
the single edge a), yet `create_route` returns `[a]`, not
`[start, goal]`. -/
theorem c6_one_edge_retry_returned :
    exOneEdgeCalls.findRouteWeighted = some [] ∧
    exOneEdgeCalls.findRouteDefault = some ["a"] ∧
    (create_route exOneEdgeCalls 0.4 "s" "g" defaultContext).1 = ["a"] ∧
    (create_route exOneEdgeCalls 0.4 "s" "g" defaultContext).1 ≠ ["s", "g"] := by
  have h1 : (create_route exOneEdgeCalls 0.4 "s" "g" defaultContext).1 = ["a"] := by
    simp [create_route, exOneEdgeCalls]
  refine ⟨rfl, rfl, h1, ?_⟩
  rw [h1]
  simp

/-- C6 amended: `create_route` always returns a non-empty route and
never raises; it returns exactly `[start, goal]` when the initial
distance query raises, when a routing call raises, or when the retried
routing call returns an empty route; a non-empty single-edge retry
result is returned as-is rather than degraded. -/
theorem c6_create_route_nonempty_amended :
    (∀ (calls : RoutingCalls) (bt : ℚ) (se ge : String) (ctx : RouteContext),
      (create_route calls bt se ge ctx).1 ≠ []) ∧
    (∀ (calls : RoutingCalls) (bt : ℚ) (se ge : String) (ctx : RouteContext),
      calls.distStartGoal = none → (create_route calls bt se ge ctx).1 = [se, ge]) ∧
    (∀ (calls : RoutingCalls) (bt : ℚ) (se ge : String) (ctx : RouteContext) (td : ℚ),
      calls.distStartGoal = some td → calls.findRouteWeighted = none →
      (create_route calls bt se ge ctx).1 = [se, ge]) ∧
    (∀ (calls : RoutingCalls) (bt : ℚ) (se ge : String) (ctx : RouteContext) (td : ℚ)
        (r : List String),
      calls.distStartGoal = some td → calls.findRouteWeighted = some r → r.length ≤ 1 →
      (calls.findRouteDefault = none ∨ calls.findRouteDefault = some []) →
      (create_route calls bt se ge ctx).1 = [se, ge]) := by
  refine ⟨?_, ?_, ?_, ?_⟩
  · intro calls bt se ge ctx
    unfold create_route
    cases calls.distStartGoal with
    | none => simp
    | some td =>
      dsimp only
      cases calls.findRouteWeighted with
      | none => simp
      | some r =>
        dsimp only
        by_cases hlen : r.length ≤ 1
        · rw [if_pos hlen]
          cases calls.findRouteDefault with
          | none => simp
          | some r2 =>
            dsimp only
            by_cases he : r2.isEmpty
            · rw [if_pos he]
              simp
            · rw [if_neg he]
              simpa [List.isEmpty_iff] using he
        · rw [if_neg hlen]
          intro hr
          dsimp only at hr
          rw [hr] at hlen
          simp at hlen
  · intro calls bt se ge ctx hd
    unfold create_route
    rw [hd]
  · intro calls bt se ge ctx td hd hw
    unfold create_route
    rw [hd, hw]
  · intro calls bt se ge ctx td r hd hw hlen hdef
    unfold create_route
    rw [hd, hw]
    dsimp only
    rw [if_pos hlen]
    rcases hdef with hdef | hdef <;> simp [hdef]

/-- Witness for C6 amended: the degraded two-edge result on an
exception, on an empty retry, and non-emptiness on the retry example. -/
theorem c6_create_route_nonempty_amended_witness :
    (create_route exRetryCalls 0.4 "s" "g" defaultContext).1 ≠ [] ∧
    (create_route (⟨none, 0, none, none, []⟩ : RoutingCalls) 0.4 "s" "g"
      defaultContext).1 = ["s", "g"] ∧
    (create_route (⟨some 1000, 0, some [], some [], []⟩ : RoutingCalls) 0.4 "s" "g"
      defaultContext).1 = ["s", "g"] := by
  refine ⟨c6_create_route_nonempty_amended.1 exRetryCalls 0.4 "s" "g" defaultContext,
    c6_create_route_nonempty_amended.2.1 _ 0.4 "s" "g" defaultContext rfl,
    c6_create_route_nonempty_amended.2.2.2 _ 0.4 "s" "g" defaultContext 1000 []
      rfl rfl (by norm_num) (Or.inr rfl)⟩

/-- Witness for C9 at a concrete finite-cost call: distance 100 m at
10 m/s from a mid-route HIGH context. -/
theorem c9_calculate_cost_frame_witness :
    ∃ d, exRouterEnv.distanceRoad "s" "n" = some d ∧ 0 ≤ d ∧
      (calculate_cost exRouterEnv 0.4 "s" "n" exMidCtx).2.distance_traveled = d ∧
      (calculate_cost exRouterEnv 0.4 "s" "n" exMidCtx).2.time_accumulated =
        d / max ((exRouterEnv.edgeSpeed "n").getD 40) 1 ∧
      (∃ sample, (calculate_cost exRouterEnv 0.4 "s" "n" exMidCtx).2.weight_history =
        exMidCtx.weight_history ++ [sample]) ∧
      (calculate_cost exRouterEnv 0.4 "s" "n" exMidCtx).2.start_time = exMidCtx.start_time ∧
      (calculate_cost exRouterEnv 0.4 "s" "n" exMidCtx).2.total_distance =
        exMidCtx.total_distance ∧
      (calculate_cost exRouterEnv 0.4 "s" "n" exMidCtx).2.severity = exMidCtx.severity ∧
      (calculate_cost exRouterEnv 0.4 "s" "n" exMidCtx).2.vehicle_type =
        exMidCtx.vehicle_type ∧
      (calculate_cost exRouterEnv 0.4 "s" "n" exMidCtx).2.signals_passed =
        exMidCtx.signals_passed ∧
      (calculate_cost exRouterEnv 0.4 "s" "n" exMidCtx).2.goal_edge = exMidCtx.goal_edge :=
  c9_calculate_cost_frame exRouterEnv 0.4 "s" "n" exMidCtx 52.3 (by
    norm_num [calculate_cost, get_adaptive_weights, exRouterEnv, exMidCtx,
      severityFactors, rushHourShift, min_def,
      (by decide : ¬ (("HIGH" : String) = "CRITICAL"))])
